import Mathlib

/-!
Shallow embedding of the `coalooball/alerts` ingestion core
(`src/consumer_service.rs`, `src/clickhouse.rs`, `src/edr_alert.rs`,
`src/ngav_alert.rs`) and proofs about its classification, normalization
and storage pipeline.

External library calls (serde_json, chrono, uuid, rdkafka, the ClickHouse
client) are modelled as explicit parameters: the embedding mirrors the
control flow and data flow of the repository exactly, while the behaviour
of a collaborator (does this insert succeed? what does the JSON text parse
to?) is an input.
-/

namespace Alerts

/-- Model of `serde_json::Value`. Numbers are modelled as integers: every
field of the alert schemas that is numeric is an integer type in the Rust
structs (`u8`/`u32`/`u64`/`i32`), so fractional JSON numbers only ever
cause a parse failure, which `asU64`/`asU32`/`asU8`/`asI32` also produce
for any out-of-range value. -/
inductive Json where
  | null : Json
  | bool : Bool → Json
  | num : Int → Json
  | str : String → Json
  | arr : List Json → Json
  | obj : List (String × Json) → Json

/-- Model of `serde_json::Value::get(key)`: `Some` only on objects that carry the
key. -/
def Json.get (j : Json) (key : String) : Option Json :=
  match j with
  | .obj fields => fields.lookup key
  | _ => none

def Json.asStr : Json → Option String
  | .str s => some s
  | _ => none

/-- Deserializing a Rust `u64` from a JSON value. -/
def Json.asU64 : Json → Option Nat
  | .num n => if 0 ≤ n ∧ n < 2 ^ 64 then some n.toNat else none
  | _ => none

/-- Deserializing a Rust `u32` from a JSON value. -/
def Json.asU32 : Json → Option Nat
  | .num n => if 0 ≤ n ∧ n < 2 ^ 32 then some n.toNat else none
  | _ => none

/-- Deserializing a Rust `u8` from a JSON value. -/
def Json.asU8 : Json → Option Nat
  | .num n => if 0 ≤ n ∧ n < 2 ^ 8 then some n.toNat else none
  | _ => none

/-- Deserializing a Rust `i32` from a JSON value. -/
def Json.asI32 : Json → Option Int
  | .num n => if -(2 ^ 31) ≤ n ∧ n < 2 ^ 31 then some n else none
  | _ => none

/-- Deserializing a Rust `Vec<String>` from a JSON value. -/
def Json.asStrList : Json → Option (List String)
  | .arr xs => xs.mapM Json.asStr
  | _ => none

/-- Deserializing a `Vec<T>` given the element deserializer. -/
def Json.asListOf (f : Json → Option α) : Json → Option (List α)
  | .arr xs => xs.mapM f
  | _ => none

def Json.getStr (j : Json) (k : String) : Option String := (j.get k).bind Json.asStr
def Json.getU64 (j : Json) (k : String) : Option Nat := (j.get k).bind Json.asU64
def Json.getU32 (j : Json) (k : String) : Option Nat := (j.get k).bind Json.asU32
def Json.getU8 (j : Json) (k : String) : Option Nat := (j.get k).bind Json.asU8
def Json.getI32 (j : Json) (k : String) : Option Int := (j.get k).bind Json.asI32
def Json.getStrList (j : Json) (k : String) : Option (List String) :=
  (j.get k).bind Json.asStrList

/-- Struct `Publisher` from `src/edr_alert.rs`. -/
structure Publisher where
  name : String
  state : String
deriving DecidableEq

/-- Struct `Watchlist` from `src/edr_alert.rs`. -/
structure Watchlist where
  id : String
  name : String
deriving DecidableEq

/-- Struct `Workflow` from `src/ngav_alert.rs`. -/
structure Workflow where
  state : String
  remediation : String
  last_update_time : String
  comment : String
  changed_by : String
deriving DecidableEq

/-- Struct `ThreatIndicator` from `src/ngav_alert.rs`. -/
structure ThreatIndicator where
  process_name : String
  sha256 : String
  ttps : List String
deriving DecidableEq

/-- Struct `EdrAlert` from `src/edr_alert.rs`. Rust integer widths are recorded in
the serde-style parser below (`parseEdrAlert`); field `alert_type` carries
the JSON key `type` (serde rename). -/
structure EdrAlert where
  schema : Int
  create_time : String
  device_external_ip : String
  device_id : Nat
  device_internal_ip : String
  device_name : String
  device_os : String
  ioc_hit : String
  ioc_id : String
  org_key : String
  parent_cmdline : String
  parent_guid : String
  parent_hash : List String
  parent_path : String
  parent_pid : Nat
  parent_publisher : List Publisher
  parent_reputation : String
  parent_username : String
  process_cmdline : String
  process_guid : String
  process_hash : List String
  process_path : String
  process_pid : Nat
  process_publisher : List Publisher
  process_reputation : String
  process_username : String
  report_id : String
  report_name : String
  report_tags : List String
  severity : Nat
  alert_type : String
  watchlists : List Watchlist
deriving DecidableEq

/-- Struct `NgavAlert` from `src/ngav_alert.rs`; field `alert_type` carries the
JSON key `type` (serde rename). -/
structure NgavAlert where
  alert_type : String
  id : String
  legacy_alert_id : String
  org_key : String
  create_time : String
  last_update_time : String
  first_event_time : String
  last_event_time : String
  threat_id : String
  severity : Nat
  category : String
  device_id : Nat
  device_os : String
  device_os_version : String
  device_name : String
  device_username : String
  policy_id : Nat
  policy_name : String
  target_value : String
  workflow : Workflow
  device_internal_ip : String
  device_external_ip : String
  alert_url : String
  reason : String
  reason_code : String
  process_name : String
  device_location : String
  created_by_event_id : String
  threat_indicators : List ThreatIndicator
  threat_cause_actor_sha256 : String
  threat_cause_actor_name : String
  threat_cause_actor_process_pid : String
  threat_cause_reputation : String
  threat_cause_threat_category : String
  threat_cause_vector : String
  threat_cause_cause_event_id : String
  blocked_threat_category : String
  not_blocked_threat_category : String
  kill_chain_status : List String
  run_state : String
  policy_applied : String
deriving DecidableEq

def parsePublisher (j : Json) : Option Publisher := do
  let name ← j.getStr "name"
  let state ← j.getStr "state"
  pure { name, state }

def parseWatchlist (j : Json) : Option Watchlist := do
  let id ← j.getStr "id"
  let name ← j.getStr "name"
  pure { id, name }

def parseWorkflow (j : Json) : Option Workflow := do
  let state ← j.getStr "state"
  let remediation ← j.getStr "remediation"
  let last_update_time ← j.getStr "last_update_time"
  let comment ← j.getStr "comment"
  let changed_by ← j.getStr "changed_by"
  pure { state, remediation, last_update_time, comment, changed_by }

def parseThreatIndicator (j : Json) : Option ThreatIndicator := do
  let process_name ← j.getStr "process_name"
  let sha256 ← j.getStr "sha256"
  let ttps ← j.getStrList "ttps"
  pure { process_name, sha256, ttps }

/-- Fields 1–8 of the serde deserializer for `EdrAlert` (split into chunks
of eight lookups purely for compilation; the field set, key names, and
integer widths are exactly those of `src/edr_alert.rs`). -/
def parseEdrFields1 (j : Json) :
    Option (Int × String × String × Nat × String × String × String × String) := do
  let schema ← j.getI32 "schema"
  let create_time ← j.getStr "create_time"
  let device_external_ip ← j.getStr "device_external_ip"
  let device_id ← j.getU64 "device_id"
  let device_internal_ip ← j.getStr "device_internal_ip"
  let device_name ← j.getStr "device_name"
  let device_os ← j.getStr "device_os"
  let ioc_hit ← j.getStr "ioc_hit"
  pure (schema, create_time, device_external_ip, device_id, device_internal_ip,
        device_name, device_os, ioc_hit)

/-- Fields 9–16 of the serde deserializer for `EdrAlert`. -/
def parseEdrFields2 (j : Json) :
    Option (String × String × String × String × List String × String × Nat ×
            List Publisher) := do
  let ioc_id ← j.getStr "ioc_id"
  let org_key ← j.getStr "org_key"
  let parent_cmdline ← j.getStr "parent_cmdline"
  let parent_guid ← j.getStr "parent_guid"
  let parent_hash ← j.getStrList "parent_hash"
  let parent_path ← j.getStr "parent_path"
  let parent_pid ← j.getU32 "parent_pid"
  let parent_publisher ← (j.get "parent_publisher").bind (Json.asListOf parsePublisher)
  pure (ioc_id, org_key, parent_cmdline, parent_guid, parent_hash, parent_path,
        parent_pid, parent_publisher)

/-- Fields 17–24 of the serde deserializer for `EdrAlert`. -/
def parseEdrFields3 (j : Json) :
    Option (String × String × String × String × List String × String × Nat ×
            List Publisher) := do
  let parent_reputation ← j.getStr "parent_reputation"
  let parent_username ← j.getStr "parent_username"
  let process_cmdline ← j.getStr "process_cmdline"
  let process_guid ← j.getStr "process_guid"
  let process_hash ← j.getStrList "process_hash"
  let process_path ← j.getStr "process_path"
  let process_pid ← j.getU32 "process_pid"
  let process_publisher ← (j.get "process_publisher").bind (Json.asListOf parsePublisher)
  pure (parent_reputation, parent_username, process_cmdline, process_guid,
        process_hash, process_path, process_pid, process_publisher)

/-- Fields 25–32 of the serde deserializer for `EdrAlert`; the struct field
`alert_type` reads the JSON key `type` (serde rename). -/
def parseEdrFields4 (j : Json) :
    Option (String × String × String × String × List String × Nat × String ×
            List Watchlist) := do
  let process_reputation ← j.getStr "process_reputation"
  let process_username ← j.getStr "process_username"
  let report_id ← j.getStr "report_id"
  let report_name ← j.getStr "report_name"
  let report_tags ← j.getStrList "report_tags"
  let severity ← j.getU8 "severity"
  let alert_type ← j.getStr "type"
  let watchlists ← (j.get "watchlists").bind (Json.asListOf parseWatchlist)
  pure (process_reputation, process_username, report_id, report_name,
        report_tags, severity, alert_type, watchlists)

/-- Model of `serde_json::from_value::<EdrAlert>`: every field is required, with the
Rust integer widths enforced; unknown fields are ignored (serde default). -/
def parseEdrAlert (j : Json) : Option EdrAlert := do
  let (schema, create_time, device_external_ip, device_id, device_internal_ip,
       device_name, device_os, ioc_hit) ← parseEdrFields1 j
  let (ioc_id, org_key, parent_cmdline, parent_guid, parent_hash, parent_path,
       parent_pid, parent_publisher) ← parseEdrFields2 j
  let (parent_reputation, parent_username, process_cmdline, process_guid,
       process_hash, process_path, process_pid, process_publisher) ← parseEdrFields3 j
  let (process_reputation, process_username, report_id, report_name,
       report_tags, severity, alert_type, watchlists) ← parseEdrFields4 j
  pure { schema, create_time, device_external_ip, device_id, device_internal_ip,
         device_name, device_os, ioc_hit, ioc_id, org_key, parent_cmdline,
         parent_guid, parent_hash, parent_path, parent_pid, parent_publisher,
         parent_reputation, parent_username, process_cmdline, process_guid,
         process_hash, process_path, process_pid, process_publisher,
         process_reputation, process_username, report_id, report_name,
         report_tags, severity, alert_type, watchlists }

/-- Fields 1–8 of the serde deserializer for `NgavAlert` (split into chunks
of eight lookups purely for compilation; the field set, key names, and
integer widths are exactly those of `src/ngav_alert.rs`); the struct field
`alert_type` reads the JSON key `type` (serde rename). -/
def parseNgavFields1 (j : Json) :
    Option (String × String × String × String × String × String × String × String) := do
  let alert_type ← j.getStr "type"
  let id ← j.getStr "id"
  let legacy_alert_id ← j.getStr "legacy_alert_id"
  let org_key ← j.getStr "org_key"
  let create_time ← j.getStr "create_time"
  let last_update_time ← j.getStr "last_update_time"
  let first_event_time ← j.getStr "first_event_time"
  let last_event_time ← j.getStr "last_event_time"
  pure (alert_type, id, legacy_alert_id, org_key, create_time, last_update_time,
        first_event_time, last_event_time)

/-- Fields 9–16 of the serde deserializer for `NgavAlert`. -/
def parseNgavFields2 (j : Json) :
    Option (String × Nat × String × Nat × String × String × String × String) := do
  let threat_id ← j.getStr "threat_id"
  let severity ← j.getU8 "severity"
  let category ← j.getStr "category"
  let device_id ← j.getU64 "device_id"
  let device_os ← j.getStr "device_os"
  let device_os_version ← j.getStr "device_os_version"
  let device_name ← j.getStr "device_name"
  let device_username ← j.getStr "device_username"
  pure (threat_id, severity, category, device_id, device_os, device_os_version,
        device_name, device_username)

/-- Fields 17–24 of the serde deserializer for `NgavAlert`. -/
def parseNgavFields3 (j : Json) :
    Option (Nat × String × String × Workflow × String × String × String × String) := do
  let policy_id ← j.getU64 "policy_id"
  let policy_name ← j.getStr "policy_name"
  let target_value ← j.getStr "target_value"
  let workflow ← (j.get "workflow").bind parseWorkflow
  let device_internal_ip ← j.getStr "device_internal_ip"
  let device_external_ip ← j.getStr "device_external_ip"
  let alert_url ← j.getStr "alert_url"
  let reason ← j.getStr "reason"
  pure (policy_id, policy_name, target_value, workflow, device_internal_ip,
        device_external_ip, alert_url, reason)

/-- Fields 25–32 of the serde deserializer for `NgavAlert`. -/
def parseNgavFields4 (j : Json) :
    Option (String × String × String × String × List ThreatIndicator × String ×
            String × String) := do
  let reason_code ← j.getStr "reason_code"
  let process_name ← j.getStr "process_name"
  let device_location ← j.getStr "device_location"
  let created_by_event_id ← j.getStr "created_by_event_id"
  let threat_indicators ← (j.get "threat_indicators").bind (Json.asListOf parseThreatIndicator)
  let threat_cause_actor_sha256 ← j.getStr "threat_cause_actor_sha256"
  let threat_cause_actor_name ← j.getStr "threat_cause_actor_name"
  let threat_cause_actor_process_pid ← j.getStr "threat_cause_actor_process_pid"
  pure (reason_code, process_name, device_location, created_by_event_id,
        threat_indicators, threat_cause_actor_sha256, threat_cause_actor_name,
        threat_cause_actor_process_pid)

/-- Fields 33–41 of the serde deserializer for `NgavAlert`. -/
def parseNgavFields5 (j : Json) :
    Option (String × String × String × String × String × String × List String ×
            String × String) := do
  let threat_cause_reputation ← j.getStr "threat_cause_reputation"
  let threat_cause_threat_category ← j.getStr "threat_cause_threat_category"
  let threat_cause_vector ← j.getStr "threat_cause_vector"
  let threat_cause_cause_event_id ← j.getStr "threat_cause_cause_event_id"
  let blocked_threat_category ← j.getStr "blocked_threat_category"
  let not_blocked_threat_category ← j.getStr "not_blocked_threat_category"
  let kill_chain_status ← j.getStrList "kill_chain_status"
  let run_state ← j.getStr "run_state"
  let policy_applied ← j.getStr "policy_applied"
  pure (threat_cause_reputation, threat_cause_threat_category,
        threat_cause_vector, threat_cause_cause_event_id,
        blocked_threat_category, not_blocked_threat_category,
        kill_chain_status, run_state, policy_applied)

/-- Model of `serde_json::from_value::<NgavAlert>`. -/
def parseNgavAlert (j : Json) : Option NgavAlert := do
  let (alert_type, id, legacy_alert_id, org_key, create_time, last_update_time,
       first_event_time, last_event_time) ← parseNgavFields1 j
  let (threat_id, severity, category, device_id, device_os, device_os_version,
       device_name, device_username) ← parseNgavFields2 j
  let (policy_id, policy_name, target_value, workflow, device_internal_ip,
       device_external_ip, alert_url, reason) ← parseNgavFields3 j
  let (reason_code, process_name, device_location, created_by_event_id,
       threat_indicators, threat_cause_actor_sha256, threat_cause_actor_name,
       threat_cause_actor_process_pid) ← parseNgavFields4 j
  let (threat_cause_reputation, threat_cause_threat_category,
       threat_cause_vector, threat_cause_cause_event_id,
       blocked_threat_category, not_blocked_threat_category,
       kill_chain_status, run_state, policy_applied) ← parseNgavFields5 j
  pure { alert_type, id, legacy_alert_id, org_key, create_time, last_update_time,
         first_event_time, last_event_time, threat_id, severity, category,
         device_id, device_os, device_os_version, device_name, device_username,
         policy_id, policy_name, target_value, workflow, device_internal_ip,
         device_external_ip, alert_url, reason, reason_code, process_name,
         device_location, created_by_event_id, threat_indicators,
         threat_cause_actor_sha256, threat_cause_actor_name,
         threat_cause_actor_process_pid, threat_cause_reputation,
         threat_cause_threat_category, threat_cause_vector,
         threat_cause_cause_event_id, blocked_threat_category,
         not_blocked_threat_category, kill_chain_status, run_state,
         policy_applied }

/-- Function `ConsumerService::looks_like_edr` (src/consumer_service.rs:279). -/
def looks_like_edr (json_value : Json) : Bool :=
  (json_value.get "report_id").isSome &&
  (json_value.get "device_id").isSome &&
  (json_value.get "process_path").isSome &&
  (json_value.get "parent_path").isSome

/-- Function `ConsumerService::looks_like_ngav` (src/consumer_service.rs:287). -/
def looks_like_ngav (json_value : Json) : Bool :=
  (json_value.get "threat_id").isSome &&
  (json_value.get "policy_id").isSome &&
  (json_value.get "workflow").isSome &&
  (json_value.get "reason").isSome

/-- Function `EdrAlert::get_alert_key` (src/edr_alert.rs:63). -/
def EdrAlert.get_alert_key (e : EdrAlert) : String :=
  e.device_name ++ "_" ++ e.report_id

/-- Function `NgavAlert::get_alert_key` (src/ngav_alert.rs:76). -/
def NgavAlert.get_alert_key (n : NgavAlert) : String :=
  n.device_name ++ "_" ++ n.id

/-- Function `parse_datetime_for_clickhouse` (src/clickhouse.rs:24). The chrono call
`DateTime::parse_from_rfc3339` composed with the ClickHouse
`DateTime64(3)` formatter is an external-library function, passed in as
`chronoParse`; `now` is the identically formatted `Utc::now()`. The
function is total: a string the parser rejects yields the current time
instead of an error. -/
def parse_datetime_for_clickhouse (chronoParse : String → Option String)
    (now : String) (datetime_str : String) : String :=
  match chronoParse datetime_str with
  | some formatted => formatted
  | none => now

/-- The external collaborators of the ingestion path, gathered as one
explicit environment: `chronoParse` and `now` model chrono (see
`parse_datetime_for_clickhouse`), `newUuid` models `Uuid::new_v4`,
`edrToJsonString` and `ngavToJsonString` model `serde_json::to_string`
(with `unwrap_or_default`, hence total), and `fromStr` models
`serde_json::from_str::<Value>` applied to a payload string. -/
structure Env where
  chronoParse : String → Option String
  now : String
  newUuid : String
  edrToJsonString : EdrAlert → String
  ngavToJsonString : NgavAlert → String
  fromStr : String → Option Json

/-- Struct `CommonAlert` from `src/clickhouse.rs`. -/
structure CommonAlert where
  id : String
  original_id : String
  data_type : String
  create_time : String
  device_id : Nat
  device_name : String
  device_os : String
  device_internal_ip : String
  device_external_ip : String
  org_key : String
  severity : Nat
  alert_type : String
  threat_category : String
  device_username : String
  raw_data : String
  processed_time : String
  kafka_topic : String
  kafka_partition : Nat
  kafka_offset : Nat
  kafka_config_name : String
deriving DecidableEq

/-- Struct `EdrAlertRow` from `src/clickhouse.rs`. -/
structure EdrAlertRow where
  id : String
  schema : Nat
  create_time : String
  device_external_ip : String
  device_id : Nat
  device_internal_ip : String
  device_name : String
  device_os : String
  ioc_hit : String
  ioc_id : String
  org_key : String
  parent_cmdline : String
  parent_guid : String
  parent_hash : List String
  parent_path : String
  parent_pid : Nat
  parent_publisher : List String
  parent_reputation : String
  parent_username : String
  process_cmdline : String
  process_guid : String
  process_hash : List String
  process_path : String
  process_pid : Nat
  process_publisher : List String
  process_reputation : String
  process_username : String
  report_id : String
  report_name : String
  report_tags : List String
  severity : Nat
  alert_type : String
  watchlists : List String
  processed_time : String
  kafka_topic : String
  kafka_partition : Nat
  kafka_offset : Nat
deriving DecidableEq

/-- Struct `NgavAlertRow` from `src/clickhouse.rs`. -/
structure NgavAlertRow where
  id : String
  alert_type : String
  legacy_alert_id : String
  org_key : String
  create_time : String
  last_update_time : String
  first_event_time : String
  last_event_time : String
  threat_id : String
  severity : Nat
  category : String
  device_id : Nat
  device_os : String
  device_os_version : String
  device_name : String
  device_username : String
  policy_id : Nat
  policy_name : String
  target_value : String
  workflow_state : String
  workflow_remediation : String
  workflow_last_update_time : String
  workflow_comment : String
  workflow_changed_by : String
  device_internal_ip : String
  device_external_ip : String
  alert_url : String
  reason : String
  reason_code : String
  process_name : String
  device_location : String
  created_by_event_id : String
  threat_indicators : List String
  threat_cause_actor_sha256 : String
  threat_cause_actor_name : String
  threat_cause_actor_process_pid : String
  threat_cause_reputation : String
  threat_cause_threat_category : String
  threat_cause_vector : String
  threat_cause_cause_event_id : String
  blocked_threat_category : String
  not_blocked_threat_category : String
  kill_chain_status : List String
  run_state : String
  policy_applied : String
  processed_time : String
  kafka_topic : String
  kafka_partition : Nat
  kafka_offset : Nat
deriving DecidableEq

/-- Conversion `impl From<&EdrAlert> for CommonAlert` (src/clickhouse.rs:1185). -/
def CommonAlert.fromEdr (env : Env) (edr : EdrAlert) : CommonAlert where
  id := env.newUuid
  original_id := edr.get_alert_key
  data_type := "edr"
  create_time := parse_datetime_for_clickhouse env.chronoParse env.now edr.create_time
  device_id := edr.device_id
  device_name := edr.device_name
  device_os := edr.device_os
  device_internal_ip := edr.device_internal_ip
  device_external_ip := edr.device_external_ip
  org_key := edr.org_key
  severity := edr.severity
  alert_type := edr.alert_type
  threat_category := ""
  device_username := edr.process_username
  raw_data := env.edrToJsonString edr
  processed_time := ""
  kafka_topic := ""
  kafka_partition := 0
  kafka_offset := 0
  kafka_config_name := ""

/-- Conversion `impl From<&NgavAlert> for CommonAlert` (src/clickhouse.rs:1213). -/
def CommonAlert.fromNgav (env : Env) (ngav : NgavAlert) : CommonAlert where
  id := env.newUuid
  original_id := ngav.get_alert_key
  data_type := "ngav"
  create_time := parse_datetime_for_clickhouse env.chronoParse env.now ngav.create_time
  device_id := ngav.device_id
  device_name := ngav.device_name
  device_os := ngav.device_os
  device_internal_ip := ngav.device_internal_ip
  device_external_ip := ngav.device_external_ip
  org_key := ngav.org_key
  severity := ngav.severity
  alert_type := ngav.alert_type
  threat_category := ngav.threat_cause_threat_category
  device_username := ngav.device_username
  raw_data := env.ngavToJsonString ngav
  processed_time := ""
  kafka_topic := ""
  kafka_partition := 0
  kafka_offset := 0
  kafka_config_name := ""

/-- Conversion `impl From<&EdrAlert> for EdrAlertRow` (src/clickhouse.rs:1241). The
Rust `edr.schema as u32` is an `i32 → u32` wrapping cast, made explicit
modulo `2 ^ 32`. -/
def EdrAlertRow.fromEdr (env : Env) (edr : EdrAlert) : EdrAlertRow where
  id := edr.get_alert_key
  schema := (edr.schema % 2 ^ 32).toNat
  create_time := parse_datetime_for_clickhouse env.chronoParse env.now edr.create_time
  device_external_ip := edr.device_external_ip
  device_id := edr.device_id
  device_internal_ip := edr.device_internal_ip
  device_name := edr.device_name
  device_os := edr.device_os
  ioc_hit := edr.ioc_hit
  ioc_id := edr.ioc_id
  org_key := edr.org_key
  parent_cmdline := edr.parent_cmdline
  parent_guid := edr.parent_guid
  parent_hash := edr.parent_hash
  parent_path := edr.parent_path
  parent_pid := edr.parent_pid
  parent_publisher := edr.parent_publisher.map (fun p => p.name)
  parent_reputation := edr.parent_reputation
  parent_username := edr.parent_username
  process_cmdline := edr.process_cmdline
  process_guid := edr.process_guid
  process_hash := edr.process_hash
  process_path := edr.process_path
  process_pid := edr.process_pid
  process_publisher := edr.process_publisher.map (fun p => p.name)
  process_reputation := edr.process_reputation
  process_username := edr.process_username
  report_id := edr.report_id
  report_name := edr.report_name
  report_tags := edr.report_tags
  severity := edr.severity
  alert_type := edr.alert_type
  watchlists := edr.watchlists.map (fun w => w.name)
  processed_time := ""
  kafka_topic := ""
  kafka_partition := 0
  kafka_offset := 0

/-- Conversion `impl From<&NgavAlert> for NgavAlertRow` (src/clickhouse.rs:1286). -/
def NgavAlertRow.fromNgav (env : Env) (ngav : NgavAlert) : NgavAlertRow where
  id := ngav.get_alert_key
  alert_type := ngav.alert_type
  legacy_alert_id := ngav.legacy_alert_id
  org_key := ngav.org_key
  create_time := parse_datetime_for_clickhouse env.chronoParse env.now ngav.create_time
  last_update_time := parse_datetime_for_clickhouse env.chronoParse env.now ngav.last_update_time
  first_event_time := parse_datetime_for_clickhouse env.chronoParse env.now ngav.first_event_time
  last_event_time := parse_datetime_for_clickhouse env.chronoParse env.now ngav.last_event_time
  threat_id := ngav.threat_id
  severity := ngav.severity
  category := ngav.category
  device_id := ngav.device_id
  device_os := ngav.device_os
  device_os_version := ngav.device_os_version
  device_name := ngav.device_name
  device_username := ngav.device_username
  policy_id := ngav.policy_id
  policy_name := ngav.policy_name
  target_value := ngav.target_value
  workflow_state := ngav.workflow.state
  workflow_remediation := ngav.workflow.remediation
  workflow_last_update_time := parse_datetime_for_clickhouse env.chronoParse env.now ngav.workflow.last_update_time
  workflow_comment := ngav.workflow.comment
  workflow_changed_by := ngav.workflow.changed_by
  device_internal_ip := ngav.device_internal_ip
  device_external_ip := ngav.device_external_ip
  alert_url := ngav.alert_url
  reason := ngav.reason
  reason_code := ngav.reason_code
  process_name := ngav.process_name
  device_location := ngav.device_location
  created_by_event_id := ngav.created_by_event_id
  threat_indicators := ngav.threat_indicators.map (fun ti => ti.process_name ++ ":" ++ ti.sha256)
  threat_cause_actor_sha256 := ngav.threat_cause_actor_sha256
  threat_cause_actor_name := ngav.threat_cause_actor_name
  threat_cause_actor_process_pid := ngav.threat_cause_actor_process_pid
  threat_cause_reputation := ngav.threat_cause_reputation
  threat_cause_threat_category := ngav.threat_cause_threat_category
  threat_cause_vector := ngav.threat_cause_vector
  threat_cause_cause_event_id := ngav.threat_cause_cause_event_id
  blocked_threat_category := ngav.blocked_threat_category
  not_blocked_threat_category := ngav.not_blocked_threat_category
  kill_chain_status := ngav.kill_chain_status
  run_state := ngav.run_state
  policy_applied := ngav.policy_applied
  processed_time := ""
  kafka_topic := ""
  kafka_partition := 0
  kafka_offset := 0

/-- Struct `KafkaMessage` (src/consumer_service.rs:29). `partition` is an `i32`
and `offset` an `i64` in the source; both are modelled as unbounded `Int`,
with the `as u32` and `as u64` wrapping casts made explicit where they
occur (`store_edr_alert`, `store_ngav_alert`). -/
structure KafkaMessage where
  topic : String
  partition : Int
  offset : Int
  payload : String
  timestamp : Option Int
  kafka_config_id : String
  data_type : Option String

/-- One attempted call on the `ClickHouseConnection` insert API
(`insert_common_alert`, `insert_edr_alert`, `insert_ngav_alert`). -/
inductive StoreEvent where
  | insertCommon (alert : CommonAlert)
  | insertEdr (row : EdrAlertRow)
  | insertNgav (row : NgavAlertRow)
deriving DecidableEq

/-- Whether an insert targets one of the two type-specific tables. -/
def StoreEvent.isTypeSpecific : StoreEvent → Bool
  | .insertCommon _ => false
  | .insertEdr _ => true
  | .insertNgav _ => true

/-- The three Kafka provenance assignments `store_edr_alert` and
`store_ngav_alert` both perform on the common record
(`common_alert.kafka_topic = ...` etc.); `partition as u32` and
`offset as u64` are wrapping casts, made explicit modulo `2 ^ 32` and
`2 ^ 64`. -/
def CommonAlert.withKafka (a : CommonAlert) (kafka_message : KafkaMessage) : CommonAlert :=
  { a with
      kafka_topic := kafka_message.topic
      kafka_partition := (kafka_message.partition % 2 ^ 32).toNat
      kafka_offset := (kafka_message.offset % 2 ^ 64).toNat }

/-- The same three provenance assignments on the EDR row. -/
def EdrAlertRow.withKafka (a : EdrAlertRow) (kafka_message : KafkaMessage) : EdrAlertRow :=
  { a with
      kafka_topic := kafka_message.topic
      kafka_partition := (kafka_message.partition % 2 ^ 32).toNat
      kafka_offset := (kafka_message.offset % 2 ^ 64).toNat }

/-- The same three provenance assignments on the NGAV row. -/
def NgavAlertRow.withKafka (a : NgavAlertRow) (kafka_message : KafkaMessage) : NgavAlertRow :=
  { a with
      kafka_topic := kafka_message.topic
      kafka_partition := (kafka_message.partition % 2 ^ 32).toNat
      kafka_offset := (kafka_message.offset % 2 ^ 64).toNat }

/-- Function `ConsumerService::store_edr_alert` (src/consumer_service.rs:295):
builds the common record and the type-specific row from the alert,
overrides their Kafka provenance fields (`withKafka`), then issues the two
inserts in order — the second only after the first returned `Ok` (the `?`
operator). `sink` models the ClickHouse collaborator: whether a given
insert succeeds. The result is the trace of attempted inserts, each paired
with its outcome, together with the Result value of the function itself. -/
def store_edr_alert (env : Env) (sink : StoreEvent → Bool) (edr_alert : EdrAlert)
    (kafka_message : KafkaMessage) : List (StoreEvent × Bool) × Except String Unit :=
  let common_alert := (CommonAlert.fromEdr env edr_alert).withKafka kafka_message
  let edr_row := (EdrAlertRow.fromEdr env edr_alert).withKafka kafka_message
  if sink (StoreEvent.insertCommon common_alert) then
    if sink (StoreEvent.insertEdr edr_row) then
      ([(StoreEvent.insertCommon common_alert, true),
        (StoreEvent.insertEdr edr_row, true)], .ok ())
    else
      ([(StoreEvent.insertCommon common_alert, true),
        (StoreEvent.insertEdr edr_row, false)], .error "insert_edr_alert failed")
  else
    ([(StoreEvent.insertCommon common_alert, false)],
     .error "insert_common_alert failed")

/-- Function `ConsumerService::store_ngav_alert` (src/consumer_service.rs:327),
the NGAV counterpart of `store_edr_alert`. -/
def store_ngav_alert (env : Env) (sink : StoreEvent → Bool) (ngav_alert : NgavAlert)
    (kafka_message : KafkaMessage) : List (StoreEvent × Bool) × Except String Unit :=
  let common_alert := (CommonAlert.fromNgav env ngav_alert).withKafka kafka_message
  let ngav_row := (NgavAlertRow.fromNgav env ngav_alert).withKafka kafka_message
  if sink (StoreEvent.insertCommon common_alert) then
    if sink (StoreEvent.insertNgav ngav_row) then
      ([(StoreEvent.insertCommon common_alert, true),
        (StoreEvent.insertNgav ngav_row, true)], .ok ())
    else
      ([(StoreEvent.insertCommon common_alert, true),
        (StoreEvent.insertNgav ngav_row, false)], .error "insert_ngav_alert failed")
  else
    ([(StoreEvent.insertCommon common_alert, false)],
     .error "insert_common_alert failed")

/-- Function `ConsumerService::process_message` (src/consumer_service.rs:231).
Parses the payload (`serde_json::from_str`, the `?` operator turns a parse
failure into an error return), then matches on
`kafka_message.data_type.as_deref()`: the `Some("edr")` and `Some("ngav")`
arms try only the declared schema and silently skip on a parse failure
(debug log, `Ok`); the catchall arm sniffs the structure with
`looks_like_edr` first, then `looks_like_ngav`, and skips when the
full parse of the matched sniff fails or when neither matches. The original
`match` with two literal arms and a catchall is rendered as the equivalent
if-chain. -/
def process_message (env : Env) (sink : StoreEvent → Bool)
    (kafka_message : KafkaMessage) : List (StoreEvent × Bool) × Except String Unit :=
  match env.fromStr kafka_message.payload with
  | none => ([], .error "invalid JSON payload")
  | some json_value =>
    if kafka_message.data_type = some "edr" then
      match parseEdrAlert json_value with
      | some edr_alert => store_edr_alert env sink edr_alert kafka_message
      | none => ([], .ok ())
    else if kafka_message.data_type = some "ngav" then
      match parseNgavAlert json_value with
      | some ngav_alert => store_ngav_alert env sink ngav_alert kafka_message
      | none => ([], .ok ())
    else
      if looks_like_edr json_value then
        match parseEdrAlert json_value with
        | some edr_alert => store_edr_alert env sink edr_alert kafka_message
        | none => ([], .ok ())
      else if looks_like_ngav json_value then
        match parseNgavAlert json_value with
        | some ngav_alert => store_ngav_alert env sink ngav_alert kafka_message
        | none => ([], .ok ())
      else ([], .ok ())

/-- A broker record as delivered by `consumer.recv()` (rdkafka).
`payload` is `none` when the record carries no payload bytes at all;
otherwise it is the payload text after `String::from_utf8_lossy`, which is
total, so present bytes always yield a string. -/
structure BrokerMessage where
  topic : String
  partition : Int
  offset : Int
  payload : Option String
  timestamp : Option Int

/-- The body of the worker receive loop for one successfully received
broker record (the `Ok(message)` arm, src/consumer_service.rs:168–209).
A record whose payload is absent is skipped (`continue`) before the
`KafkaMessage` envelope is built — so before the LiveFeed publish and
before any processing or storage; this is modelled by the `none` result.
Otherwise the envelope is built (declared type looked up from the data
source mapping), published to the broadcast channel, and handed to
`process_message`; the `some` result carries the published envelope and
the processing outcome. In both cases the loop continues with the next
record. -/
def handle_received (env : Env) (sink : StoreEvent → Bool) (config_id : String)
    (data_source_mapping : List (String × String)) (message : BrokerMessage) :
    Option (KafkaMessage × (List (StoreEvent × Bool) × Except String Unit)) :=
  match message.payload with
  | none => none
  | some payload =>
    let kafka_message : KafkaMessage :=
      { topic := message.topic
        partition := message.partition
        offset := message.offset
        payload := payload
        timestamp := message.timestamp
        kafka_config_id := config_id
        data_type := data_source_mapping.lookup config_id }
    some (kafka_message, process_message env sink kafka_message)

/-- Model of `ConsumerInstance` (src/consumer_service.rs:39). The `handle`
field is a `tokio::task::JoinHandle<()>`; its one observable of interest,
whether the spawned task has actually terminated, is modelled by
`task_terminated`. -/
structure ConsumerInstance where
  task_terminated : Bool
  config_id : String
  topic : String
deriving DecidableEq

/-- One value of the JSON status object built per worker by
`get_consumer_status`. -/
structure ConsumerStatusEntry where
  config_id : String
  topic : String
  data_type : String
  status : String
deriving DecidableEq

/-- Function `ConsumerService::get_consumer_status` (src/consumer_service.rs:359):
for every tracked consumer, emits the key `config_id ++ "_" ++ topic` and
a status object whose `status` field is the literal string `"running"`;
the task handle is never consulted. -/
def get_consumer_status (consumers : List (String × ConsumerInstance))
    (data_source_mapping : List (String × String)) :
    List (String × ConsumerStatusEntry) :=
  consumers.map (fun p =>
    let data_type := (data_source_mapping.lookup p.1).getD "unknown"
    (p.1 ++ "_" ++ p.2.topic,
     { config_id := p.1
       topic := p.2.topic
       data_type := data_type
       status := "running" }))

/-- Struct `KafkaConfigRow` (src/database.rs:58); `created_at` and `updated_at`
are chrono timestamps, kept as opaque strings. -/
structure KafkaConfigRow where
  id : String
  name : String
  bootstrap_servers : String
  topic : String
  group_id : String
  message_timeout_ms : Int
  request_timeout_ms : Int
  retry_backoff_ms : Int
  retries : Int
  auto_offset_reset : String
  enable_auto_commit : Bool
  auto_commit_interval_ms : Int
  is_active : Bool
  created_at : String
  updated_at : String
deriving DecidableEq

/-- The `for config in active_configs` loop of `ConsumerService::start`
(src/consumer_service.rs:100): `spawn` models the outcome of
`start_consumer` for one config — its fallible steps, the rdkafka client
`create()?` and `subscribe(...)?`, happen before the task is spawned and
the instance recorded. The `?` aborts the loop at the first failure, so
the configs already started stay started. Returns the list of configs
whose consumer was started, and the loop result. -/
def start_consumers (spawn : KafkaConfigRow → Bool) :
    List KafkaConfigRow → List KafkaConfigRow × Except String Unit
  | [] => ([], .ok ())
  | config :: rest =>
    if spawn config then
      let result := start_consumers spawn rest
      (config :: result.1, result.2)
    else ([], .error "start_consumer failed")

/-- Function `ConsumerService::start` (src/consumer_service.rs:88): reads the
active configs (`registry_read` is the outcome of
`db.get_active_kafka_configs()`, propagated by `?` on failure); an empty
list is a warn-and-`Ok` no-op; otherwise each consumer is started in
order, aborting at the first `start_consumer` failure. Returns the
spawned workers and the overall result. -/
def start (registry_read : Except String (List KafkaConfigRow))
    (spawn : KafkaConfigRow → Bool) :
    List KafkaConfigRow × Except String Unit :=
  match registry_read with
  | .error e => ([], .error e)
  | .ok active_configs =>
    if active_configs.isEmpty then ([], .ok ())
    else start_consumers spawn active_configs

/-! Concrete sample data used to witness the theorems: a full EDR document
(as `serde_json` would decode it), a document carrying only the four EDR
structural markers, and the matching parsed values. -/

/-- A full EDR alert document, decoded. -/
def cEdrJson : Json := .obj
  [("schema", .num 1),
   ("create_time", .str "2024-05-05T01:02:03Z"),
   ("device_external_ip", .str "1.2.3.4"),
   ("device_id", .num 42),
   ("device_internal_ip", .str "10.0.0.5"),
   ("device_name", .str "host-1"),
   ("device_os", .str "WINDOWS"),
   ("ioc_hit", .str "ioc-hit"),
   ("ioc_id", .str "ioc-1"),
   ("org_key", .str "ORGKEY"),
   ("parent_cmdline", .str "services.exe -k"),
   ("parent_guid", .str "guid-parent"),
   ("parent_hash", .arr [.str "hash-p1", .str "hash-p2"]),
   ("parent_path", .str "c:/windows/services.exe"),
   ("parent_pid", .num 100),
   ("parent_publisher", .arr [.obj [("name", .str "Microsoft"), ("state", .str "SIGNED")]]),
   ("parent_reputation", .str "REP_WHITE"),
   ("parent_username", .str "SYSTEM"),
   ("process_cmdline", .str "svchost.exe -k netsvcs"),
   ("process_guid", .str "guid-child"),
   ("process_hash", .arr [.str "hash-c1", .str "hash-c2"]),
   ("process_path", .str "c:/windows/svchost.exe"),
   ("process_pid", .num 200),
   ("process_publisher", .arr [.obj [("name", .str "Microsoft"), ("state", .str "SIGNED")]]),
   ("process_reputation", .str "REP_WHITE"),
   ("process_username", .str "SYSTEM"),
   ("report_id", .str "rep-1"),
   ("report_name", .str "Report One"),
   ("report_tags", .arr [.str "attack", .str "windows"]),
   ("severity", .num 5),
   ("type", .str "watchlist.hit"),
   ("watchlists", .arr [.obj [("id", .str "wl-1"), ("name", .str "Watch One")]])]

/-- The parse of `cEdrJson`. -/
def cEdr : EdrAlert where
  schema := 1
  create_time := "2024-05-05T01:02:03Z"
  device_external_ip := "1.2.3.4"
  device_id := 42
  device_internal_ip := "10.0.0.5"
  device_name := "host-1"
  device_os := "WINDOWS"
  ioc_hit := "ioc-hit"
  ioc_id := "ioc-1"
  org_key := "ORGKEY"
  parent_cmdline := "services.exe -k"
  parent_guid := "guid-parent"
  parent_hash := ["hash-p1", "hash-p2"]
  parent_path := "c:/windows/services.exe"
  parent_pid := 100
  parent_publisher := [{ name := "Microsoft", state := "SIGNED" }]
  parent_reputation := "REP_WHITE"
  parent_username := "SYSTEM"
  process_cmdline := "svchost.exe -k netsvcs"
  process_guid := "guid-child"
  process_hash := ["hash-c1", "hash-c2"]
  process_path := "c:/windows/svchost.exe"
  process_pid := 200
  process_publisher := [{ name := "Microsoft", state := "SIGNED" }]
  process_reputation := "REP_WHITE"
  process_username := "SYSTEM"
  report_id := "rep-1"
  report_name := "Report One"
  report_tags := ["attack", "windows"]
  severity := 5
  alert_type := "watchlist.hit"
  watchlists := [{ id := "wl-1", name := "Watch One" }]

/-- A document carrying only the four EDR structural markers: it passes
`looks_like_edr` but fails both full schema parses. -/
def cMarkersJson : Json := .obj
  [("report_id", .str "rep-1"),
   ("device_id", .num 42),
   ("process_path", .str "c:/windows/svchost.exe"),
   ("parent_path", .str "c:/windows/services.exe")]

/-- The JSON text of `cMarkersJson` as it would arrive on the wire. -/
def cPayloadMarkers : String :=
  "\x7b\"report_id\":\"rep-1\",\"device_id\":42,\"process_path\":\"c:/windows/svchost.exe\",\"parent_path\":\"c:/windows/services.exe\"\x7d"

/-- A wire payload for the full EDR document `cEdrJson`. -/
def cPayloadEdr : String := "edr-alert-json"

/-- A wire payload that is not valid JSON. -/
def cPayloadGarbage : String := "analyst notes, not json"

/-- A decoded document matching neither structural shape. -/
def cOtherJson : Json := .obj [("message", .str "heartbeat"), ("seq", .num 9)]

/-- A wire payload for `cOtherJson`. -/
def cPayloadOther : String := "\x7b\"message\":\"heartbeat\",\"seq\":9\x7d"

/-- A decoded document carrying both the EDR and the NGAV structural
markers at once. -/
def cBothJson : Json := .obj
  [("report_id", .str "rep-1"),
   ("device_id", .num 42),
   ("process_path", .str "c:/x.exe"),
   ("parent_path", .str "c:/y.exe"),
   ("threat_id", .str "th-1"),
   ("policy_id", .num 7),
   ("workflow", .obj [("state", .str "OPEN")]),
   ("reason", .str "R_MALWARE")]

/-- A wire payload for `cBothJson`. -/
def cPayloadBoth : String :=
  "\x7b\"report_id\":\"rep-1\",\"device_id\":42,\"process_path\":\"c:/x.exe\",\"parent_path\":\"c:/y.exe\",\"threat_id\":\"th-1\",\"policy_id\":7,\"workflow\":\x7b\"state\":\"OPEN\"\x7d,\"reason\":\"R_MALWARE\"\x7d"

/-- A point model of `serde_json::from_str::<Value>` at the concrete
payloads above, consistent with the serde_json behaviour on each of them. -/
def cFromStr : String → Option Json := fun s =>
  if s = cPayloadMarkers then some cMarkersJson
  else if s = cPayloadEdr then some cEdrJson
  else if s = cPayloadOther then some cOtherJson
  else if s = cPayloadBoth then some cBothJson
  else none

/-- A concrete environment: the chrono parser rejects everything (so the
fallback time is observable), UUIDs and serializations are fixed. -/
def cEnv : Env where
  chronoParse := fun _ => none
  now := "2025-01-01 00:00:00.000"
  newUuid := "00000000-0000-0000-0000-000000000001"
  edrToJsonString := fun _ => "serialized-edr"
  ngavToJsonString := fun _ => "serialized-ngav"
  fromStr := cFromStr

/-- A sink on which every insert succeeds. -/
def cSinkTrue : StoreEvent → Bool := fun _ => true

/-- A sink on which the common insert succeeds and every type-specific
insert fails. -/
def cSinkCommonOnly : StoreEvent → Bool := fun e => !e.isTypeSpecific

/-- A message on a source whose declared type is `ngav`, carrying the
EDR-marker payload. -/
def cKmDeclaredNgav : KafkaMessage where
  topic := "alerts-topic"
  partition := 0
  offset := 5
  payload := cPayloadMarkers
  timestamp := some 1714867200000
  kafka_config_id := "cfg-1"
  data_type := some "ngav"

/-- A message on a source with no declared type, carrying the full EDR
payload. -/
def cKmNoDecl : KafkaMessage where
  topic := "alerts-topic"
  partition := 0
  offset := 6
  payload := cPayloadEdr
  timestamp := some 1714867200001
  kafka_config_id := "cfg-2"
  data_type := none

/-- A message on a source with no declared type, carrying the
neither-shape payload. -/
def cKmOther : KafkaMessage where
  topic := "alerts-topic"
  partition := 1
  offset := 7
  payload := cPayloadOther
  timestamp := none
  kafka_config_id := "cfg-2"
  data_type := none

/-- A tracked consumer whose task has terminated. -/
def cInstTerminated : ConsumerInstance where
  task_terminated := true
  config_id := "cfg-1"
  topic := "alerts-topic"

/-- A tracked consumer whose task is still running. -/
def cInstLive : ConsumerInstance where
  task_terminated := false
  config_id := "cfg-1"
  topic := "alerts-topic"

/-- An active source config. -/
def cConfig : KafkaConfigRow where
  id := "cfg-1"
  name := "edr-source"
  bootstrap_servers := "kafka:9092"
  topic := "alerts-topic"
  group_id := "alerts-group"
  message_timeout_ms := 5000
  request_timeout_ms := 5000
  retry_backoff_ms := 100
  retries := 3
  auto_offset_reset := "earliest"
  enable_auto_commit := true
  auto_commit_interval_ms := 5000
  is_active := true
  created_at := "2024-01-01T00:00:00Z"
  updated_at := "2024-01-01T00:00:00Z"

/-- A second active source config, identical except for its name, whose
consumer creation is made to fail in the witness scenario. -/
def cConfigBad : KafkaConfigRow :=
  { cConfig with id := "cfg-9", name := "bad-source" }

/-- A message on a source with no declared type, carrying the payload that
matches both marker sets. -/
def cKmBoth : KafkaMessage where
  topic := "alerts-topic"
  partition := 2
  offset := 8
  payload := cPayloadBoth
  timestamp := none
  kafka_config_id := "cfg-2"
  data_type := none

/-- A broker record that carries no payload bytes at all. -/
def cBrokerEmpty : BrokerMessage where
  topic := "alerts-topic"
  partition := 0
  offset := 9
  payload := none
  timestamp := none

/-! Helper lemmas shared by the claim theorems below. -/

/-- Presence of a key follows from a successful string field read. -/
lemma isSome_of_getStr {j : Json} {k : String} {s : String}
    (h : j.getStr k = some s) : (j.get k).isSome = true := by
  unfold Json.getStr at h
  cases hg : j.get k with
  | none => rw [hg] at h; simp at h
  | some v => simp [hg]

/-- Presence of a key follows from a successful u64 field read. -/
lemma isSome_of_getU64 {j : Json} {k : String} {n : Nat}
    (h : j.getU64 k = some n) : (j.get k).isSome = true := by
  unfold Json.getU64 at h
  cases hg : j.get k with
  | none => rw [hg] at h; simp at h
  | some v => simp [hg]

/-- Splitting a one-element list around a distinguished element. -/
lemma split_of_one {α : Type _} (x a : α) (pre post : List α)
    (h : [x] = pre ++ a :: post) : pre = [] ∧ a = x := by
  rcases pre with _ | ⟨p, pre⟩
  · simp at h
    exact ⟨rfl, h.1.symm⟩
  · simp at h

/-- Splitting a two-element list around a distinguished element. -/
lemma split_of_two {α : Type _} (x y a : α) (pre post : List α)
    (h : [x, y] = pre ++ a :: post) :
    (pre = [] ∧ a = x) ∨ (pre = [x] ∧ a = y) := by
  rcases pre with _ | ⟨p, pre⟩
  · simp at h
    exact Or.inl ⟨rfl, h.1.symm⟩
  · rcases pre with _ | ⟨q, pre⟩
    · simp at h
      exact Or.inr ⟨by rw [h.1], h.2.1.symm⟩
    · simp at h

/-- The EDR store path never attempts an NGAV insert. -/
lemma store_edr_no_ngav (env : Env) (sink : StoreEvent → Bool)
    (e : EdrAlert) (km : KafkaMessage) (r : NgavAlertRow) (b : Bool) :
    (StoreEvent.insertNgav r, b) ∉ (store_edr_alert env sink e km).1 := by
  unfold store_edr_alert
  dsimp only
  split
  · split <;> simp
  · simp

/-- Every trace of the EDR store path is either the lone failed common
insert or contains the successful common insert. -/
lemma store_edr_common_mem (env : Env) (sink : StoreEvent → Bool)
    (e : EdrAlert) (km : KafkaMessage) :
    (store_edr_alert env sink e km).1 =
      [(StoreEvent.insertCommon ((CommonAlert.fromEdr env e).withKafka km), false)] ∨
    (StoreEvent.insertCommon ((CommonAlert.fromEdr env e).withKafka km), true) ∈
      (store_edr_alert env sink e km).1 := by
  unfold store_edr_alert
  dsimp only
  split
  · split
    · right; simp
    · right; simp
  · left; rfl

/-- NGAV counterpart of `store_edr_common_mem`. -/
lemma store_ngav_common_mem (env : Env) (sink : StoreEvent → Bool)
    (n : NgavAlert) (km : KafkaMessage) :
    (store_ngav_alert env sink n km).1 =
      [(StoreEvent.insertCommon ((CommonAlert.fromNgav env n).withKafka km), false)] ∨
    (StoreEvent.insertCommon ((CommonAlert.fromNgav env n).withKafka km), true) ∈
      (store_ngav_alert env sink n km).1 := by
  unfold store_ngav_alert
  dsimp only
  split
  · split
    · right; simp
    · right; simp
  · left; rfl

/-- The exact shapes a trace of the EDR store path can take. -/
lemma store_edr_trace_shape (env : Env) (sink : StoreEvent → Bool)
    (e : EdrAlert) (km : KafkaMessage) :
    (store_edr_alert env sink e km).1 =
      [(StoreEvent.insertCommon ((CommonAlert.fromEdr env e).withKafka km), false)] ∨
    ∃ b, (store_edr_alert env sink e km).1 =
      [(StoreEvent.insertCommon ((CommonAlert.fromEdr env e).withKafka km), true),
       (StoreEvent.insertEdr ((EdrAlertRow.fromEdr env e).withKafka km), b)] := by
  unfold store_edr_alert
  dsimp only
  split
  · split
    · exact Or.inr ⟨true, rfl⟩
    · exact Or.inr ⟨false, rfl⟩
  · exact Or.inl rfl

/-- The exact shapes a trace of the NGAV store path can take. -/
lemma store_ngav_trace_shape (env : Env) (sink : StoreEvent → Bool)
    (n : NgavAlert) (km : KafkaMessage) :
    (store_ngav_alert env sink n km).1 =
      [(StoreEvent.insertCommon ((CommonAlert.fromNgav env n).withKafka km), false)] ∨
    ∃ b, (store_ngav_alert env sink n km).1 =
      [(StoreEvent.insertCommon ((CommonAlert.fromNgav env n).withKafka km), true),
       (StoreEvent.insertNgav ((NgavAlertRow.fromNgav env n).withKafka km), b)] := by
  unfold store_ngav_alert
  dsimp only
  split
  · split
    · exact Or.inr ⟨true, rfl⟩
    · exact Or.inr ⟨false, rfl⟩
  · exact Or.inl rfl

/-- In any EDR store trace, whatever precedes a type-specific attempt is
exactly the successful common insert. -/
lemma store_edr_pre_shape (env : Env) (sink : StoreEvent → Bool)
    (e : EdrAlert) (km : KafkaMessage)
    (pre post : List (StoreEvent × Bool)) (ev : StoreEvent) (b : Bool)
    (hsplit : (store_edr_alert env sink e km).1 = pre ++ (ev, b) :: post)
    (hspec : ev.isTypeSpecific = true) :
    ∃ c, pre = [(StoreEvent.insertCommon c, true)] := by
  rcases store_edr_trace_shape env sink e km with hl | ⟨b2, hr⟩
  · rw [hl] at hsplit
    rcases split_of_one _ _ _ _ hsplit with ⟨hpre, hev⟩
    rw [Prod.mk.injEq] at hev
    rw [hev.1] at hspec
    simp [StoreEvent.isTypeSpecific] at hspec
  · rw [hr] at hsplit
    rcases split_of_two _ _ _ _ _ hsplit with ⟨hpre, hev⟩ | ⟨hpre, hev⟩
    · rw [Prod.mk.injEq] at hev
      rw [hev.1] at hspec
      simp [StoreEvent.isTypeSpecific] at hspec
    · exact ⟨_, hpre⟩

/-- NGAV counterpart of `store_edr_pre_shape`. -/
lemma store_ngav_pre_shape (env : Env) (sink : StoreEvent → Bool)
    (n : NgavAlert) (km : KafkaMessage)
    (pre post : List (StoreEvent × Bool)) (ev : StoreEvent) (b : Bool)
    (hsplit : (store_ngav_alert env sink n km).1 = pre ++ (ev, b) :: post)
    (hspec : ev.isTypeSpecific = true) :
    ∃ c, pre = [(StoreEvent.insertCommon c, true)] := by
  rcases store_ngav_trace_shape env sink n km with hl | ⟨b2, hr⟩
  · rw [hl] at hsplit
    rcases split_of_one _ _ _ _ hsplit with ⟨hpre, hev⟩
    rw [Prod.mk.injEq] at hev
    rw [hev.1] at hspec
    simp [StoreEvent.isTypeSpecific] at hspec
  · rw [hr] at hsplit
    rcases split_of_two _ _ _ _ _ hsplit with ⟨hpre, hev⟩ | ⟨hpre, hev⟩
    · rw [Prod.mk.injEq] at hev
      rw [hev.1] at hspec
      simp [StoreEvent.isTypeSpecific] at hspec
    · exact ⟨_, hpre⟩

/-- When every spawn succeeds, the start loop starts all configs. -/
lemma start_consumers_all_ok (spawn : KafkaConfigRow → Bool)
    (cfgs : List KafkaConfigRow) (h : ∀ c ∈ cfgs, spawn c = true) :
    start_consumers spawn cfgs = (cfgs, .ok ()) := by
  induction cfgs with
  | nil => rfl
  | cons c rest ih =>
    have hc := h c (List.mem_cons_self c rest)
    have hrest := ih (fun x hx => h x (List.mem_cons_of_mem c hx))
    unfold start_consumers
    rw [hc]
    simp [hrest]

/-- When the start loop reaches a failing config after a prefix of
successes, it aborts with an error and the started list is exactly that
prefix — the consumers already started stay started. -/
lemma start_consumers_fail_prefix (spawn : KafkaConfigRow → Bool)
    (pre : List KafkaConfigRow) (c : KafkaConfigRow) (rest : List KafkaConfigRow)
    (hpre : ∀ x ∈ pre, spawn x = true) (hc : spawn c = false) :
    start_consumers spawn (pre ++ c :: rest) =
      (pre, .error "start_consumer failed") := by
  induction pre with
  | nil =>
    unfold start_consumers
    simp [hc]
  | cons p pre ih =>
    have hp := hpre p (List.mem_cons_self p pre)
    have hrest := ih (fun x hx => hpre x (List.mem_cons_of_mem p hx))
    rw [List.cons_append]
    unfold start_consumers
    dsimp only
    rw [hp]
    simp [hrest]

/-! Claim theorems. -/

/-- C1 counterexample: a message whose source declares NGAV and whose
document matches the EDR structural shape but fails the NGAV schema parse
is skipped with success — classification does not fall through to
structural sniffing, and nothing is stored, contradicting the claim that
such a message is classified and stored as EDR. -/
theorem declared_type_no_fallthrough_cex :
    looks_like_edr cMarkersJson = true ∧
    cEnv.fromStr cKmDeclaredNgav.payload = some cMarkersJson ∧
    cKmDeclaredNgav.data_type = some "ngav" ∧
    parseNgavAlert cMarkersJson = none ∧
    process_message cEnv cSinkTrue cKmDeclaredNgav = ([], Except.ok ()) :=
  ⟨rfl, rfl, rfl, rfl, rfl⟩

/-- C1 (amended): with a declared type only the declared schema is tried —
a declared-NGAV message failing the NGAV parse is skipped with success and
no store attempt; structural sniffing classifies a message as EDR only
when the declared type is absent, in which case an EDR-shaped,
EDR-parsable message goes through the EDR store path. -/
theorem declared_type_then_skip (env : Env) (sink : StoreEvent → Bool)
    (km : KafkaMessage) (j : Json)
    (hparse : env.fromStr km.payload = some j) :
    (km.data_type = some "ngav" → parseNgavAlert j = none →
      process_message env sink km = ([], .ok ())) ∧
    (km.data_type = none → looks_like_edr j = true →
      ∀ e, parseEdrAlert j = some e →
        process_message env sink km = store_edr_alert env sink e km) := by
  constructor
  · intro hdecl hnone
    unfold process_message
    rw [hparse, hdecl]
    dsimp only
    rw [if_neg (by decide), if_pos rfl, hnone]
  · intro hdecl hedr e he
    unfold process_message
    rw [hparse, hdecl]
    dsimp only
    rw [if_neg (by decide), if_neg (by decide)]
    rw [if_pos hedr, he]

/-- Witness for `declared_type_then_skip` at the concrete inputs. -/
theorem declared_type_then_skip_witness :
    process_message cEnv cSinkTrue cKmDeclaredNgav = ([], Except.ok ()) ∧
    process_message cEnv cSinkTrue cKmNoDecl = store_edr_alert cEnv cSinkTrue cEdr cKmNoDecl :=
  ⟨(declared_type_then_skip cEnv cSinkTrue cKmDeclaredNgav cMarkersJson rfl).1 rfl rfl,
   (declared_type_then_skip cEnv cSinkTrue cKmNoDecl cEdrJson rfl).2 rfl rfl cEdr rfl⟩

/-- C2 counterexample: a tracked worker whose task has terminated is
reported with status string running, and the report is identical to the
one for a live worker — the flag cannot reflect task liveness. -/
theorem status_ignores_liveness_cex :
    cInstTerminated.task_terminated = true ∧
    (get_consumer_status [("cfg-1", cInstTerminated)] []).map
      (fun p => p.2.status) = ["running"] ∧
    get_consumer_status [("cfg-1", cInstTerminated)] [] =
      get_consumer_status [("cfg-1", cInstLive)] [] :=
  ⟨rfl, rfl, rfl⟩

/-- C2 (amended): status() reports every currently tracked worker with its
source id, topic and declared type, but its status field is the constant
string running, independent of whether the task of the worker has
terminated. -/
theorem status_constant_running (consumers : List (String × ConsumerInstance))
    (data_source_mapping : List (String × String)) :
    (get_consumer_status consumers data_source_mapping).length = consumers.length ∧
    ∀ entry ∈ get_consumer_status consumers data_source_mapping,
      entry.2.status = "running" := by
  constructor
  · simp [get_consumer_status]
  · intro entry h
    simp only [get_consumer_status, List.mem_map] at h
    obtain ⟨p, hp, rfl⟩ := h
    rfl

/-- Witness for `status_constant_running` on a worker with a terminated
task. -/
theorem status_constant_running_witness :
    ((get_consumer_status [("cfg-1", cInstTerminated)] []).length = 1) ∧
    (("cfg-1_alerts-topic",
      ({ config_id := "cfg-1", topic := "alerts-topic", data_type := "unknown",
         status := "running" } : ConsumerStatusEntry)) :
        String × ConsumerStatusEntry).2.status = "running" :=
  ⟨(status_constant_running [("cfg-1", cInstTerminated)] []).1,
   (status_constant_running [("cfg-1", cInstTerminated)] []).2 _
     (by simp [get_consumer_status, cInstTerminated])⟩

/-- C3 counterexample: the registry read succeeds with one active config,
but starting the consumer for it fails (rdkafka client creation or
subscription) — start() then returns an error even though the registry
read itself succeeded. -/
theorem start_error_not_only_registry_cex :
    start (.ok [cConfig]) (fun _ => false) = ([], .error "start_consumer failed") := rfl

/-- C3 (amended): start() returns an error when the registry read fails —
and then no workers are spawned — or when starting the consumer for some
config fails — and then the workers started for the configs before the
first failing one remain started, and exactly those; when the registry
returns zero active sources, start() succeeds and spawns no workers; when
every consumer starts, all configs are spawned and start() succeeds. -/
theorem start_error_conditions (registry_read : Except String (List KafkaConfigRow))
    (spawn : KafkaConfigRow → Bool) :
    (∀ e, registry_read = .error e → start registry_read spawn = ([], .error e)) ∧
    (registry_read = .ok [] → start registry_read spawn = ([], .ok ())) ∧
    (∀ cfgs, registry_read = .ok cfgs → (∀ c ∈ cfgs, spawn c = true) →
      start registry_read spawn = (cfgs, .ok ())) ∧
    (∀ pre c rest, registry_read = .ok (pre ++ c :: rest) →
      (∀ x ∈ pre, spawn x = true) → spawn c = false →
      start registry_read spawn = (pre, .error "start_consumer failed")) := by
  refine ⟨?_, ?_, ?_, ?_⟩
  · intro e he; rw [he]; rfl
  · intro he; rw [he]; rfl
  · intro cfgs he hall
    rw [he]
    unfold start
    rcases cfgs with _ | ⟨c, rest⟩
    · rfl
    · simp only [List.isEmpty_cons, ite_false]
      exact start_consumers_all_ok spawn (c :: rest) hall
  · intro pre c rest he hpre hc
    rw [he]
    unfold start
    dsimp only
    rw [if_neg (by simp)]
    exact start_consumers_fail_prefix spawn pre c rest hpre hc

/-- Witness for `start_error_conditions` at concrete registry outcomes:
the failing-spawn case uses two active configs of which the first starts
and the second fails, so the first worker remains. -/
theorem start_error_conditions_witness :
    start (.error "db down") (fun _ => true) = ([], .error "db down") ∧
    start (.ok []) (fun _ => true) = ([], .ok ()) ∧
    start (.ok [cConfig]) (fun _ => true) = ([cConfig], .ok ()) ∧
    start (.ok [cConfig, cConfigBad]) (fun cfg => cfg.name == "edr-source") =
      ([cConfig], .error "start_consumer failed") :=
  ⟨(start_error_conditions (.error "db down") (fun _ => true)).1 "db down" rfl,
   (start_error_conditions (.ok []) (fun _ => true)).2.1 rfl,
   (start_error_conditions (.ok [cConfig]) (fun _ => true)).2.2.1 [cConfig] rfl
     (by intro c hc; rfl),
   (start_error_conditions (.ok [cConfig, cConfigBad])
       (fun cfg => cfg.name == "edr-source")).2.2.2 [cConfig] cConfigBad [] rfl
     (by decide) (by decide)⟩

/-- C4 counterexample: with a sink that accepts the common insert and
rejects the type-specific insert, processing a classified message writes
exactly one common record and zero type-specific records — the claimed
if-and-only-if between the two writes fails. -/
theorem split_persistence_cex :
    ((process_message cEnv cSinkCommonOnly cKmNoDecl).1.filter
        (fun p => !p.1.isTypeSpecific && p.2)).length = 1 ∧
    ((process_message cEnv cSinkCommonOnly cKmNoDecl).1.filter
        (fun p => p.1.isTypeSpecific && p.2)).length = 0 := ⟨rfl, rfl⟩

/-- C4 (amended): only one direction of the claimed equivalence holds — a
type-specific record is written only if the common record for the same
message was successfully written; the converse can fail when the
type-specific insert errors after the common insert succeeded. -/
theorem specific_written_implies_common (env : Env) (sink : StoreEvent → Bool)
    (km : KafkaMessage) (ev : StoreEvent)
    (hmem : (ev, true) ∈ (process_message env sink km).1)
    (hspec : ev.isTypeSpecific = true) :
    ∃ c, (StoreEvent.insertCommon c, true) ∈ (process_message env sink km).1 := by
  unfold process_message at hmem ⊢
  cases hfs : env.fromStr km.payload with
  | none => rw [hfs] at hmem; simp at hmem
  | some j =>
    rw [hfs] at hmem
    dsimp only at hmem ⊢
    by_cases hdt : km.data_type = some "edr"
    · rw [if_pos hdt] at hmem ⊢
      cases hpe : parseEdrAlert j with
      | some e =>
        rw [hpe] at hmem
        dsimp only at hmem ⊢
        rcases store_edr_common_mem env sink e km with hl | hr
        · rw [hl] at hmem; simp at hmem
        · exact ⟨_, hr⟩
      | none => rw [hpe] at hmem; simp at hmem
    · rw [if_neg hdt] at hmem ⊢
      by_cases hdt2 : km.data_type = some "ngav"
      · rw [if_pos hdt2] at hmem ⊢
        cases hpn : parseNgavAlert j with
        | some n =>
          rw [hpn] at hmem
          dsimp only at hmem ⊢
          rcases store_ngav_common_mem env sink n km with hl | hr
          · rw [hl] at hmem; simp at hmem
          · exact ⟨_, hr⟩
        | none => rw [hpn] at hmem; simp at hmem
      · rw [if_neg hdt2] at hmem ⊢
        by_cases hle : looks_like_edr j
        · rw [if_pos hle] at hmem ⊢
          cases hpe : parseEdrAlert j with
          | some e =>
            rw [hpe] at hmem
            dsimp only at hmem ⊢
            rcases store_edr_common_mem env sink e km with hl | hr
            · rw [hl] at hmem; simp at hmem
            · exact ⟨_, hr⟩
          | none => rw [hpe] at hmem; simp at hmem
        · rw [if_neg hle] at hmem ⊢
          by_cases hln : looks_like_ngav j
          · rw [if_pos hln] at hmem ⊢
            cases hpn : parseNgavAlert j with
            | some n =>
              rw [hpn] at hmem
              dsimp only at hmem ⊢
              rcases store_ngav_common_mem env sink n km with hl | hr
              · rw [hl] at hmem; simp at hmem
              · exact ⟨_, hr⟩
            | none => rw [hpn] at hmem; simp at hmem
          · rw [if_neg hln] at hmem; simp at hmem

/-- Witness for `specific_written_implies_common` at a concrete stored
message. -/
theorem specific_written_implies_common_witness :
    ∃ c, (StoreEvent.insertCommon c, true) ∈ (process_message cEnv cSinkTrue cKmNoDecl).1 :=
  specific_written_implies_common cEnv cSinkTrue cKmNoDecl
    (StoreEvent.insertEdr ((EdrAlertRow.fromEdr cEnv cEdr).withKafka cKmNoDecl))
    (by decide) rfl

/-- C5: for a parsed document on a source with no declared type, the
structural sniff tests the EDR markers before the NGAV markers and the
first match wins — whenever the EDR markers are all present (in particular
when both marker sets are present at once) processing takes the EDR branch
exactly, and no NGAV insert is ever attempted. -/
theorem sniffing_order_edr_first (env : Env) (sink : StoreEvent → Bool)
    (km : KafkaMessage) (j : Json)
    (hparse : env.fromStr km.payload = some j)
    (hdecl : km.data_type = none)
    (hedr : looks_like_edr j = true) :
    process_message env sink km =
      (match parseEdrAlert j with
       | some e => store_edr_alert env sink e km
       | none => ([], Except.ok ())) ∧
    ∀ r b, (StoreEvent.insertNgav r, b) ∉ (process_message env sink km).1 := by
  have hpm : process_message env sink km =
      (match parseEdrAlert j with
       | some e => store_edr_alert env sink e km
       | none => ([], Except.ok ())) := by
    unfold process_message
    rw [hparse, hdecl]
    dsimp only
    rw [if_neg (by decide), if_neg (by decide)]
    rw [if_pos hedr]
  refine ⟨hpm, ?_⟩
  intro r b
  rw [hpm]
  match parseEdrAlert j with
  | some e => exact store_edr_no_ngav env sink e km r b
  | none => simp

set_option maxRecDepth 8192 in
/-- Witness for `sniffing_order_edr_first` on the document that satisfies
both marker sets at once. -/
theorem sniffing_order_edr_first_witness :
    (process_message cEnv cSinkTrue cKmBoth =
      (match parseEdrAlert cBothJson with
       | some e => store_edr_alert cEnv cSinkTrue e cKmBoth
       | none => ([], Except.ok ())) ∧
     ∀ r b, (StoreEvent.insertNgav r, b) ∉ (process_message cEnv cSinkTrue cKmBoth).1) ∧
    looks_like_ngav cBothJson = true :=
  ⟨sniffing_order_edr_first cEnv cSinkTrue cKmBoth cBothJson rfl rfl rfl, rfl⟩

/-- C6: a successfully parsed message on a source with no declared type
that matches neither structural shape is dropped — no insert of any kind
is attempted and processing returns success. -/
theorem unrecognized_dropped (env : Env) (sink : StoreEvent → Bool)
    (km : KafkaMessage) (j : Json)
    (hparse : env.fromStr km.payload = some j)
    (hdecl : km.data_type = none)
    (hedr : looks_like_edr j = false)
    (hngav : looks_like_ngav j = false) :
    process_message env sink km = ([], .ok ()) := by
  unfold process_message
  rw [hparse, hdecl]
  simp [hedr, hngav]

/-- Witness for `unrecognized_dropped` on the neither-shape document. -/
theorem unrecognized_dropped_witness :
    process_message cEnv cSinkTrue cKmOther = ([], Except.ok ()) :=
  unrecognized_dropped cEnv cSinkTrue cKmOther cOtherJson rfl rfl rfl rfl

/-- C7: round trip for EDR — from any document that the EDR schema parse
accepts, the normalized common record carries data type edr, the document
passes the EDR structural classification, and the process/parent fields of
the type-specific row (paths, pids, cmdlines, hashes, guids) equal the
fields of the parsed alert, which in turn equal the source JSON fields
verbatim. -/
theorem edr_round_trip (env : Env) (j : Json) (e : EdrAlert)
    (hparse : parseEdrAlert j = some e) :
    (CommonAlert.fromEdr env e).data_type = "edr" ∧
    looks_like_edr j = true ∧
    ((EdrAlertRow.fromEdr env e).process_path = e.process_path ∧
     (EdrAlertRow.fromEdr env e).process_pid = e.process_pid ∧
     (EdrAlertRow.fromEdr env e).process_cmdline = e.process_cmdline ∧
     (EdrAlertRow.fromEdr env e).parent_path = e.parent_path ∧
     (EdrAlertRow.fromEdr env e).parent_pid = e.parent_pid ∧
     (EdrAlertRow.fromEdr env e).parent_cmdline = e.parent_cmdline ∧
     (EdrAlertRow.fromEdr env e).process_hash = e.process_hash ∧
     (EdrAlertRow.fromEdr env e).parent_hash = e.parent_hash ∧
     (EdrAlertRow.fromEdr env e).process_guid = e.process_guid ∧
     (EdrAlertRow.fromEdr env e).parent_guid = e.parent_guid) ∧
    (j.getStr "process_path" = some e.process_path ∧
     j.getU32 "process_pid" = some e.process_pid ∧
     j.getStr "process_cmdline" = some e.process_cmdline ∧
     j.getStr "parent_path" = some e.parent_path ∧
     j.getU32 "parent_pid" = some e.parent_pid ∧
     j.getStr "parent_cmdline" = some e.parent_cmdline ∧
     j.getStrList "process_hash" = some e.process_hash ∧
     j.getStrList "parent_hash" = some e.parent_hash ∧
     j.getStr "process_guid" = some e.process_guid ∧
     j.getStr "parent_guid" = some e.parent_guid) := by
  unfold parseEdrAlert at hparse
  simp only [Option.pure_def, Option.bind_eq_bind, Option.bind_eq_some, Option.some.injEq] at hparse
  obtain ⟨x1, hc1, hparse⟩ := hparse
  obtain ⟨s, ct, dei, did, dii, dn, dos, ih⟩ := x1
  simp only [Option.bind_eq_some, Option.some.injEq] at hparse
  obtain ⟨x2, hc2, hparse⟩ := hparse
  obtain ⟨ii, ok, pacl, pagu, paha, papa, papi, papu⟩ := x2
  simp only [Option.bind_eq_some, Option.some.injEq] at hparse
  obtain ⟨x3, hc3, hparse⟩ := hparse
  obtain ⟨pare, paun, prcl, prgu, prha, prpa, prpi, prpu⟩ := x3
  simp only [Option.bind_eq_some, Option.some.injEq] at hparse
  obtain ⟨x4, hc4, hparse⟩ := hparse
  obtain ⟨prre, prun, ri, rn, rt, sev, at2, wl⟩ := x4
  subst hparse
  unfold parseEdrFields2 at hc2
  simp only [Option.pure_def, Option.bind_eq_bind, Option.bind_eq_some, Option.some.injEq] at hc2
  obtain ⟨a1, hb1, a2, hb2, a3, hb3, a4, hb4, a5, hb5, a6, hb6, a7, hb7, a8, hb8, heq2⟩ := hc2
  obtain ⟨rfl, rfl, rfl, rfl, rfl, rfl, rfl, rfl⟩ := heq2
  unfold parseEdrFields3 at hc3
  simp only [Option.pure_def, Option.bind_eq_bind, Option.bind_eq_some, Option.some.injEq] at hc3
  obtain ⟨b1, hd1, b2, hd2, b3, hd3, b4, hd4, b5, hd5, b6, hd6, b7, hd7, b8, hd8, heq3⟩ := hc3
  obtain ⟨rfl, rfl, rfl, rfl, rfl, rfl, rfl, rfl⟩ := heq3
  unfold parseEdrFields1 at hc1
  simp only [Option.pure_def, Option.bind_eq_bind, Option.bind_eq_some, Option.some.injEq] at hc1
  obtain ⟨e1, he1, e2, he2, e3, he3, e4, he4, e5, he5, e6, he6, e7, he7, e8, he8, heq1⟩ := hc1
  obtain ⟨rfl, rfl, rfl, rfl, rfl, rfl, rfl, rfl⟩ := heq1
  unfold parseEdrFields4 at hc4
  simp only [Option.pure_def, Option.bind_eq_bind, Option.bind_eq_some, Option.some.injEq] at hc4
  obtain ⟨f1, hf1, f2, hf2, f3, hf3, f4, hf4, f5, hf5, f6, hf6, f7, hf7, f8, hf8, heq4⟩ := hc4
  obtain ⟨rfl, rfl, rfl, rfl, rfl, rfl, rfl, rfl⟩ := heq4
  refine ⟨rfl, ?_, ⟨rfl, rfl, rfl, rfl, rfl, rfl, rfl, rfl, rfl, rfl⟩,
          hd6, hd7, hd3, hb6, hb7, hb3, hd5, hb5, hd4, hb4⟩
  unfold looks_like_edr
  rw [isSome_of_getStr hf3, isSome_of_getU64 he4, isSome_of_getStr hd6, isSome_of_getStr hb6]
  rfl

/-- Witness for `edr_round_trip` at the concrete EDR document. -/
theorem edr_round_trip_witness :
    (CommonAlert.fromEdr cEnv cEdr).data_type = "edr" ∧
    looks_like_edr cEdrJson = true ∧
    (EdrAlertRow.fromEdr cEnv cEdr).process_path = cEdr.process_path ∧
    cEdrJson.getStr "process_path" = some cEdr.process_path :=
  ⟨(edr_round_trip cEnv cEdrJson cEdr rfl).1,
   (edr_round_trip cEnv cEdrJson cEdr rfl).2.1,
   (edr_round_trip cEnv cEdrJson cEdr rfl).2.2.1.1,
   (edr_round_trip cEnv cEdrJson cEdr rfl).2.2.2.1⟩

/-- C8: in the trace of any processed message, everything preceding a
type-specific insert attempt is exactly the successful common insert — the
two writes are sequential, the common record first, and the type-specific
insert is not attempted until the common insert completed successfully. -/
theorem common_before_specific (env : Env) (sink : StoreEvent → Bool)
    (km : KafkaMessage)
    (pre post : List (StoreEvent × Bool)) (ev : StoreEvent) (b : Bool)
    (hsplit : (process_message env sink km).1 = pre ++ (ev, b) :: post)
    (hspec : ev.isTypeSpecific = true) :
    ∃ c, pre = [(StoreEvent.insertCommon c, true)] := by
  unfold process_message at hsplit
  cases hfs : env.fromStr km.payload with
  | none => rw [hfs] at hsplit; simp at hsplit
  | some j =>
    rw [hfs] at hsplit
    dsimp only at hsplit
    by_cases hdt : km.data_type = some "edr"
    · rw [if_pos hdt] at hsplit
      cases hpe : parseEdrAlert j with
      | some e => rw [hpe] at hsplit; exact store_edr_pre_shape env sink e km pre post ev b hsplit hspec
      | none => rw [hpe] at hsplit; simp at hsplit
    · rw [if_neg hdt] at hsplit
      by_cases hdt2 : km.data_type = some "ngav"
      · rw [if_pos hdt2] at hsplit
        cases hpn : parseNgavAlert j with
        | some n => rw [hpn] at hsplit; exact store_ngav_pre_shape env sink n km pre post ev b hsplit hspec
        | none => rw [hpn] at hsplit; simp at hsplit
      · rw [if_neg hdt2] at hsplit
        by_cases hle : looks_like_edr j
        · rw [if_pos hle] at hsplit
          cases hpe : parseEdrAlert j with
          | some e => rw [hpe] at hsplit; exact store_edr_pre_shape env sink e km pre post ev b hsplit hspec
          | none => rw [hpe] at hsplit; simp at hsplit
        · rw [if_neg hle] at hsplit
          by_cases hln : looks_like_ngav j
          · rw [if_pos hln] at hsplit
            cases hpn : parseNgavAlert j with
            | some n => rw [hpn] at hsplit; exact store_ngav_pre_shape env sink n km pre post ev b hsplit hspec
            | none => rw [hpn] at hsplit; simp at hsplit
          · rw [if_neg hln] at hsplit; simp at hsplit

/-- Witness for `common_before_specific` at the concrete stored message. -/
theorem common_before_specific_witness :
    ∃ c, [(StoreEvent.insertCommon ((CommonAlert.fromEdr cEnv cEdr).withKafka cKmNoDecl), true)] =
      [(StoreEvent.insertCommon c, true)] :=
  common_before_specific cEnv cSinkTrue cKmNoDecl
    [(StoreEvent.insertCommon ((CommonAlert.fromEdr cEnv cEdr).withKafka cKmNoDecl), true)] []
    (StoreEvent.insertEdr ((EdrAlertRow.fromEdr cEnv cEdr).withKafka cKmNoDecl)) true
    rfl rfl

/-- C9: the datetime conversion is total and never fails a record — for
any alert whose create_time string the chrono RFC 3339 parser rejects, the
conversion returns the fallback current time and normalization still
produces the full records with that fallback in create_time. -/
theorem datetime_fallback (env : Env) (e : EdrAlert)
    (hbad : env.chronoParse e.create_time = none) :
    parse_datetime_for_clickhouse env.chronoParse env.now e.create_time = env.now ∧
    (CommonAlert.fromEdr env e).create_time = env.now ∧
    (EdrAlertRow.fromEdr env e).create_time = env.now ∧
    (∀ n : NgavAlert, env.chronoParse n.create_time = none →
      (CommonAlert.fromNgav env n).create_time = env.now ∧
      (NgavAlertRow.fromNgav env n).create_time = env.now) := by
  have hp : parse_datetime_for_clickhouse env.chronoParse env.now e.create_time = env.now := by
    unfold parse_datetime_for_clickhouse
    rw [hbad]
  refine ⟨hp, hp, hp, ?_⟩
  intro n hn
  have hq : parse_datetime_for_clickhouse env.chronoParse env.now n.create_time = env.now := by
    unfold parse_datetime_for_clickhouse
    rw [hn]
  exact ⟨hq, hq⟩

/-- Witness for `datetime_fallback` under the rejecting chrono parser. -/
theorem datetime_fallback_witness :
    parse_datetime_for_clickhouse cEnv.chronoParse cEnv.now cEdr.create_time =
      "2025-01-01 00:00:00.000" ∧
    (CommonAlert.fromEdr cEnv cEdr).create_time = "2025-01-01 00:00:00.000" :=
  ⟨(datetime_fallback cEnv cEdr rfl).1, (datetime_fallback cEnv cEdr rfl).2.1⟩

/-- C10: a broker record whose payload is absent is skipped entirely
before any processing — no LiveFeed publish, no classification, no storage
attempt; the receive loop continues with the next record. -/
theorem empty_payload_skipped (env : Env) (sink : StoreEvent → Bool)
    (config_id : String) (data_source_mapping : List (String × String))
    (message : BrokerMessage) (h : message.payload = none) :
    handle_received env sink config_id data_source_mapping message = none := by
  unfold handle_received
  rw [h]

/-- Witness for `empty_payload_skipped` on the payload-less record. -/
theorem empty_payload_skipped_witness :
    handle_received cEnv cSinkTrue "cfg-1" [] cBrokerEmpty = none :=
  empty_payload_skipped cEnv cSinkTrue "cfg-1" [] cBrokerEmpty rfl

end Alerts
